import Mathlib

/-!
Shallow embedding of `src/backend/marigold_server.py` (the Marigold normal-map
HTTP service).  Floating-point values are modelled as exact rationals, with an
explicit NaN constructor so that the server's NaN sanitization step is visible;
numpy arrays of shape (a, b, c) are modelled as rectangular nested lists.
External collaborators (base64 decoding, PIL image decoding, the HTTP fetch,
the diffusers pipeline) are modelled as environment-supplied functions, and the
handler records which collaborators it invoked in a trace.
-/

set_option autoImplicit false

/-- Models a numpy float32 cell of the raw prediction: either NaN or an exact
numeric value (idealised as a rational). -/
inductive FVal where
  | nan : FVal
  | val : ℚ → FVal
deriving DecidableEq, Repr, Inhabited

/-- Models a 3-dimensional numpy array as nested lists (outermost axis first). -/
abbrev Arr3 (α : Type) : Type := List (List (List α))

/-- Elementwise map over a 3-dimensional array. -/
def mapArr {α β : Type} (f : α → β) (a : Arr3 α) : Arr3 β :=
  a.map (fun plane => plane.map (fun row => row.map f))

/-- All elements of a 3-dimensional array, flattened (row-major order). -/
def flat3 {α : Type} (a : Arr3 α) : List α :=
  a.flatten.flatten

/-- Models `np.isnan` on a single cell. -/
def FVal.isNaN : FVal → Bool
  | .nan => true
  | .val _ => false

/-- Models reading a cell after sanitization: NaN reads as 0. -/
def FVal.toQ : FVal → ℚ
  | .nan => 0
  | .val q => q

/-- Models `np.nan_to_num(·, nan=0.0)` on a single cell. -/
def nanToNumF : FVal → FVal
  | .nan => .val 0
  | .val q => .val q

/-- Models `np.nan_to_num(pred, nan=0.0)` (line 158 of the source). -/
def nanToNum3 (a : Arr3 FVal) : Arr3 FVal := mapArr nanToNumF a

/-- Models `np.isnan(pred).any()` (line 156 of the source). -/
def hasNaN3 (a : Arr3 FVal) : Bool := (flat3 a).any FVal.isNaN

/-- Models `pred.min()` on a nonempty flattened list; `none` for the empty
array (where numpy would raise). -/
def listMin : List ℚ → Option ℚ
  | [] => none
  | x :: xs => some (xs.foldl min x)

/-- Models `pred.max()` on a nonempty flattened list; `none` for the empty
array (where numpy would raise). -/
def listMax : List ℚ → Option ℚ
  | [] => none
  | x :: xs => some (xs.foldl max x)

/-- Models `np.transpose(pred, (1, 2, 0))` on a rectangular array of shape
(C, H, W): the result has shape (H, W, C) with out[i][j][k] = in[k][i][j].
Out-of-range reads (which cannot occur on the rectangular arrays numpy
handles) return `default`. -/
def transpose120 {α : Type} [Inhabited α] (a : Arr3 α) : Arr3 α :=
  match a with
  | [] => []
  | ch0 :: _ =>
    (List.range ch0.length).map fun i =>
      (List.range (ch0.getD i []).length).map fun j =>
        a.map fun ch => ((ch.getD i []).getD j default)

/-- Models lines 151-153 of the source: `if pred.ndim == 3 and pred.shape[0] == 3:
pred = np.transpose(pred, (1, 2, 0))`.  In this embedding every array is
3-dimensional, so only the first-axis length is tested. -/
def axisFix (a : Arr3 FVal) : Arr3 FVal :=
  if a.length = 3 then transpose120 a else a

/-- Models lines 156-158 of the source: after the conditional
`pred = np.nan_to_num(pred, nan=0.0)` every cell is a plain number, and a cell
that held NaN reads as 0.  (When no NaN is present the conditional is skipped
and the values are unchanged, so reading cells through `FVal.toQ` agrees with
the source in both branches.) -/
def sanitize (a : Arr3 FVal) : Arr3 ℚ := mapArr FVal.toQ a

/-- Models `np.clip(pred, 0.0, 1.0)` on a single cell (line 174). -/
def clip01 (q : ℚ) : ℚ := max 0 (min 1 q)

/-- Models `(· * 255).astype(np.uint8)` on a single cell (line 175): scale by
255 and truncate toward zero.  The values reaching this point lie in [0, 1]
after clipping, so `q * 255` is nonnegative and C-cast truncation is the
numerator divided by the denominator (equivalently `Int.floor` then `toNat`,
see `quantizeU8_eq_floor`). -/
def quantizeU8 (q : ℚ) : ℕ := (q * 255).num.toNat / (q * 255).den

/-- Models the broadcast `np.ones_like(pred) * np.array([0.5, 0.5, 1.0])` on
one innermost (channel) row (line 172): the cell at channel index k becomes
the k-th entry of (0.5, 0.5, 1.0). -/
def flatNormalRow (row : List ℚ) : List ℚ :=
  row.enum.map fun p => ([(1 : ℚ)/2, 1/2, 1].getD p.1 0)

/-- Models `np.ones_like(pred) * np.array([0.5, 0.5, 1.0])` (line 172). -/
def flatNormal (p : Arr3 ℚ) : Arr3 ℚ :=
  p.map (fun plane => plane.map flatNormalRow)

/-- Models lines 161-175 of the source on the sanitized array: compute
`p_min = pred.min()`, `p_max = pred.max()`, `range_span = p_max - p_min`;
if `range_span > 0.1` rescale via `(pred - p_min) / range_span`, else replace
the array by the flat normal; then clip to [0, 1], scale by 255 and cast to
uint8.  The empty array (on which numpy's reductions raise) is unreachable for
the claims and mapped to zeros. -/
def normalizeQ (p : Arr3 ℚ) : Arr3 ℕ :=
  match listMin (flat3 p), listMax (flat3 p) with
  | some pmin, some pmax =>
    let range_span := pmax - pmin
    let p2 := if range_span > 1/10 then mapArr (fun v => (v - pmin) / range_span) p
              else flatNormal p
    mapArr (fun v => quantizeU8 (clip01 v)) p2
  | _, _ => mapArr (fun _ => 0) p

/-- Models the whole prediction branch of the handler (lines 148-175): axis
correction, NaN sanitization, then contrast-gated normalization, clipping and
quantization. -/
def marigoldNormalize (pred : Arr3 FVal) : Arr3 ℕ :=
  normalizeQ (sanitize (axisFix pred))

/-- Checks whether one character list is an initial segment of another; used to
model Python's `str.startswith`. -/
def listIsPrefixOf : List Char → List Char → Bool
  | [], _ => true
  | _ :: _, [] => false
  | c :: cs, d :: ds => c = d && listIsPrefixOf cs ds

/-- Models `url.startswith("data:image")` (line 95 of the source). -/
def startsWithDataImage (url : String) : Bool :=
  listIsPrefixOf "data:image".data url.data

/-- Splits a character list at its first comma, returning the part before and
the part after. -/
def splitCommaAux : List Char → Option (List Char × List Char)
  | [] => none
  | c :: cs =>
    if c = ',' then some ([], cs)
    else (splitCommaAux cs).map (fun p => (c :: p.1, p.2))

/-- Models `url.split(",", 1)` followed by the two-element unpacking on line 97
of the source: `some (before, after)` when the string contains a comma, `none`
when the unpacking would raise `ValueError`. -/
def splitFirstComma (s : String) : Option (String × String) :=
  (splitCommaAux s.data).map (fun p => (⟨p.1⟩, ⟨p.2⟩))

/-- The text of the `ValueError` Python raises when `url.split(",", 1)` yields
a single part and the two-element unpacking on line 97 fails. -/
def unpackErrMsg : String := "not enough values to unpack (expected 2, got 1)"

/-- An HTTP error response, modelling FastAPI's `HTTPException`. -/
structure HttpError where
  status : ℕ
  detail : String
deriving DecidableEq, Repr

/-- The external collaborators used by `_fetch_image_from_url`: base64
decoding, PIL image decoding (`Image.open(...).convert("RGB")`), and the
network fetch (`requests.get` combined with `raise_for_status`; the second
argument is the timeout).  Each returns `Except` with the exception text. -/
structure FetchEnv (Img : Type) where
  decodeB64 : String → Except String (List ℕ)
  openRGB : List ℕ → Except String Img
  httpGet : String → ℤ → Except String (List ℕ)

/-- Records which external calls `_fetch_image_from_url` made: the base64
payload passed to the decoder, and the (url, timeout) of the network fetch. -/
structure FetchTrace where
  b64Call : Option String
  networkCall : Option (String × ℤ)
deriving DecidableEq, Repr

/-- Models `_fetch_image_from_url` (lines 92-108 of the source): a data URI is
split at its first comma and the payload is base64-decoded and opened; any
other string is fetched over the network with a 15-second timeout and the
response body is opened.  Every failure is wrapped into an HTTP 400 with the
exception text appended to `"Failed to load/parse image: "`.  The second
component records the external calls that were made. -/
def fetch_image_from_url {Img : Type} (env : FetchEnv Img) (url : String) :
    Except HttpError Img × FetchTrace :=
  if startsWithDataImage url then
    match splitFirstComma url with
    | none =>
      (.error ⟨400, "Failed to load/parse image: " ++ unpackErrMsg⟩, ⟨none, none⟩)
    | some (_, encoded) =>
      match env.decodeB64 encoded with
      | .error e => (.error ⟨400, "Failed to load/parse image: " ++ e⟩, ⟨some encoded, none⟩)
      | .ok imageData =>
        match env.openRGB imageData with
        | .error e => (.error ⟨400, "Failed to load/parse image: " ++ e⟩, ⟨some encoded, none⟩)
        | .ok img => (.ok img, ⟨some encoded, none⟩)
  else
    match env.httpGet url 15 with
    | .error e => (.error ⟨400, "Failed to load/parse image: " ++ e⟩, ⟨none, some (url, 15)⟩)
    | .ok content =>
      match env.openRGB content with
      | .error e => (.error ⟨400, "Failed to load/parse image: " ++ e⟩, ⟨none, some (url, 15)⟩)
      | .ok img => (.ok img, ⟨none, some (url, 15)⟩)

/-- Models `_load_pipeline` (lines 69-89 of the source) acting on the module
global `_PIPELINE`: if the cache is populated it is returned unchanged;
otherwise the pipeline is created and moved to its device (the combined
outcome is `create`), and the cache is assigned only when that succeeds.  The
result is the returned-or-raised value together with the new cache state. -/
def load_pipeline {Pipe : Type} (cache : Option Pipe) (create : Except String Pipe) :
    Except String Pipe × Option Pipe :=
  match cache with
  | some p => (.ok p, some p)
  | none =>
    match create with
    | .ok p => (.ok p, some p)
    | .error e => (.error e, none)

/-- Models the pydantic request model `MarigoldRequest` (lines 47-51 of the
source): `num_inference_steps` defaults to 30 when the field is omitted, and
an explicit JSON `null` is modelled by `none`. -/
structure MarigoldRequest where
  image_url : String
  num_inference_steps : Option ℤ := some 30
  seed : Option ℤ := none

/-- Models Python's `x or d` for an optional integer `x`: both `None` and `0`
are falsy and fall through to `d`. -/
def pyOrInt (x : Option ℤ) (d : ℤ) : ℤ :=
  match x with
  | none => d
  | some n => if n = 0 then d else n

/-- Models line 133 of the source: `steps = max(req.num_inference_steps or 20, 20)`. -/
def effective_steps (numInferenceSteps : Option ℤ) : ℤ :=
  max (pyOrInt numInferenceSteps 20) 20

/-- Models the pipeline result object: `prediction` is present when the object
has a `prediction` attribute (the embedding stores the first batch element
`result.prediction[0]` directly), and `images` models `getattr(result,
"images", None)` (`none` when the attribute is absent). -/
structure PipeResult (OutImg : Type) where
  prediction : Option (Arr3 FVal)
  images : Option (List OutImg)

/-- The normal-map image produced by the handler: either an array built from a
raw prediction (`Image.fromarray`) or a finished image taken from the result's
image list. -/
abbrev NormalImage (OutImg : Type) : Type := Arr3 ℕ ⊕ OutImg

/-- Models lines 144-181 of the source: if the result has a `prediction`
attribute, the prediction is normalized (lines 148-176); otherwise, if
`getattr(result, "images", None)` is truthy (present and nonempty), the first
finished image is used as-is; otherwise `normal_img` stays `None` and an HTTP
500 is raised. -/
def selectOutput {OutImg : Type} (prediction : Option (Arr3 FVal))
    (images : Option (List OutImg)) : Except HttpError (NormalImage OutImg) :=
  match prediction with
  | some pred => .ok (.inl (marigoldNormalize pred))
  | none =>
    match images with
    | some (img :: _) => .ok (.inr img)
    | _ => .error ⟨500, "Model returned no images or prediction"⟩

/-- The external collaborators used by the `marigold_normals` handler: the
fetch environment, the combined outcome of creating the pipeline
(`MarigoldNormalsPipeline.from_pretrained` plus `.to(device)`), and the
inference call `pipe(img, num_inference_steps=steps, generator=generator)`
as a function of the image, the step count and the seed. -/
structure HandlerEnv (Img Pipe OutImg : Type) where
  fetchEnv : FetchEnv Img
  create : Except String Pipe
  infer : Img → ℤ → Option ℤ → Except String (PipeResult OutImg)

/-- Records which external calls the handler made: the fetch trace, whether
`_load_pipeline` was invoked, and the (steps, seed) passed to the pipeline. -/
structure HandlerTrace where
  fetchTrace : FetchTrace
  loadCalled : Bool
  inferCall : Option (ℤ × Option ℤ)
deriving DecidableEq, Repr

/-- Models the `marigold_normals` handler (lines 111-190 of the source), with
the response-encoding step (PNG + base64, lines 183-190) elided: the result is
the normal-map image that would be encoded, or the raised `HTTPException`.
Returns the response, the `_PIPELINE` cache state after the request, and the
trace of external calls.  Order of effects follows the source: fetch the image
(line 118), lazily load the pipeline wrapping failures into a 500 (lines
120-123), run inference with the clamped step count wrapping failures into a
500 (lines 125-142), then select and post-process the output (lines 144-181). -/
def marigold_normals {Img Pipe OutImg : Type} (env : HandlerEnv Img Pipe OutImg)
    (cache : Option Pipe) (req : MarigoldRequest) :
    Except HttpError (NormalImage OutImg) × Option Pipe × HandlerTrace :=
  match fetch_image_from_url env.fetchEnv req.image_url with
  | (.error err, ft) => (.error err, cache, ⟨ft, false, none⟩)
  | (.ok img, ft) =>
    match load_pipeline cache env.create with
    | (.error e, cache') =>
      (.error ⟨500, "Failed to load model: " ++ e⟩, cache', ⟨ft, true, none⟩)
    | (.ok _pipe, cache') =>
      let steps := effective_steps req.num_inference_steps
      match env.infer img steps req.seed with
      | .error e =>
        (.error ⟨500, "Model inference failed: " ++ e⟩, cache', ⟨ft, true, some (steps, req.seed)⟩)
      | .ok result =>
        (selectOutput result.prediction result.images, cache', ⟨ft, true, some (steps, req.seed)⟩)

/-- A handler environment whose fetch, load and inference all succeed, for
exercising the successful control path on trivial carrier types. -/
def okEnv : HandlerEnv Unit Unit Unit :=
  { fetchEnv :=
      { decodeB64 := fun _ => .ok []
        openRGB := fun _ => .ok ()
        httpGet := fun _ _ => .error "no network in tests" }
    create := .ok ()
    infer := fun _ _ _ => .ok { prediction := none, images := none } }

/-- A request carrying a syntactically valid data URI and an explicit step
count of 5 (below the enforced floor of 20). -/
def lowStepsReq : MarigoldRequest :=
  { image_url := "data:image/png;base64,aGk=", num_inference_steps := some 5 }

/-- A handler environment whose base64 decoding fails, for exercising the
client-error path on trivial carrier types. -/
def badDecodeEnv : HandlerEnv Unit Unit Unit :=
  { fetchEnv :=
      { decodeB64 := fun _ => .error "bad base64"
        openRGB := fun _ => .ok ()
        httpGet := fun _ _ => .error "no network in tests" }
    create := .ok ()
    infer := fun _ _ _ => .ok { prediction := none, images := none } }

/-- A request whose data URI carries an undecodable payload. -/
def badPayloadReq : MarigoldRequest := { image_url := "data:image/png;base64,???" }

/-- A handler environment whose fetch succeeds but whose pipeline creation
fails, for exercising the model-load failure path on trivial carrier types. -/
def badLoadEnv : HandlerEnv Unit Unit Unit :=
  { fetchEnv :=
      { decodeB64 := fun _ => .ok []
        openRGB := fun _ => .ok ()
        httpGet := fun _ _ => .error "no network in tests" }
    create := .error "model unavailable"
    infer := fun _ _ _ => .ok { prediction := none, images := none } }

/-- A request carrying a well-formed data URI. -/
def dataUriReq : MarigoldRequest := { image_url := "data:image/png;base64,aGk=" }

theorem foldl_min_le (l : List ℚ) (a : ℚ) :
    l.foldl min a ≤ a ∧ ∀ y ∈ l, l.foldl min a ≤ y := by
  induction l generalizing a with
  | nil => simp
  | cons x xs ih =>
    simp only [List.foldl_cons, List.mem_cons]
    refine ⟨le_trans (ih (min a x)).1 (min_le_left a x), ?_⟩
    rintro y (rfl | hy)
    · exact le_trans (ih (min a y)).1 (min_le_right a y)
    · exact (ih (min a x)).2 y hy

theorem foldl_min_mem (l : List ℚ) (a : ℚ) : l.foldl min a ∈ a :: l := by
  induction l generalizing a with
  | nil => simp
  | cons x xs ih =>
    simp only [List.foldl_cons, List.mem_cons]
    rcases List.mem_cons.mp (ih (min a x)) with h | h
    · rcases min_choice a x with hc | hc
      · exact Or.inl (by rw [h, hc])
      · exact Or.inr (Or.inl (by rw [h, hc]))
    · exact Or.inr (Or.inr h)

theorem foldl_max_le (l : List ℚ) (a : ℚ) :
    a ≤ l.foldl max a ∧ ∀ y ∈ l, y ≤ l.foldl max a := by
  induction l generalizing a with
  | nil => simp
  | cons x xs ih =>
    simp only [List.foldl_cons, List.mem_cons]
    refine ⟨le_trans (le_max_left a x) (ih (max a x)).1, ?_⟩
    rintro y (rfl | hy)
    · exact le_trans (le_max_right a y) (ih (max a y)).1
    · exact (ih (max a x)).2 y hy

theorem foldl_max_mem (l : List ℚ) (a : ℚ) : l.foldl max a ∈ a :: l := by
  induction l generalizing a with
  | nil => simp
  | cons x xs ih =>
    simp only [List.foldl_cons, List.mem_cons]
    rcases List.mem_cons.mp (ih (max a x)) with h | h
    · rcases max_choice a x with hc | hc
      · exact Or.inl (by rw [h, hc])
      · exact Or.inr (Or.inl (by rw [h, hc]))
    · exact Or.inr (Or.inr h)

/-- The value `pred.min()` computed in the source is the least element of the
array and is attained. -/
theorem listMin_spec (l : List ℚ) (m : ℚ) (h : listMin l = some m) :
    m ∈ l ∧ ∀ x ∈ l, m ≤ x := by
  cases l with
  | nil => simp [listMin] at h
  | cons x xs =>
    simp only [listMin, Option.some.injEq] at h
    subst h
    refine ⟨foldl_min_mem xs x, ?_⟩
    intro y hy
    rcases List.mem_cons.mp hy with hy | hy
    · exact hy ▸ (foldl_min_le xs x).1
    · exact (foldl_min_le xs x).2 y hy

/-- The value `pred.max()` computed in the source is the greatest element of
the array and is attained. -/
theorem listMax_spec (l : List ℚ) (m : ℚ) (h : listMax l = some m) :
    m ∈ l ∧ ∀ x ∈ l, x ≤ m := by
  cases l with
  | nil => simp [listMax] at h
  | cons x xs =>
    simp only [listMax, Option.some.injEq] at h
    subst h
    refine ⟨foldl_max_mem xs x, ?_⟩
    intro y hy
    rcases List.mem_cons.mp hy with hy | hy
    · exact hy ▸ (foldl_max_le xs x).1
    · exact (foldl_max_le xs x).2 y hy

/-- On nonnegative inputs (all values reaching the cast after clipping), the
truncating cast agrees with the floor. -/
theorem quantizeU8_eq_floor (q : ℚ) (h : 0 ≤ q) : quantizeU8 q = (⌊q * 255⌋).toNat := by
  have hx : (0 : ℚ) ≤ q * 255 := mul_nonneg h (by norm_num)
  have hnum : (0 : ℤ) ≤ (q * 255).num := Rat.num_nonneg.mpr hx
  rw [quantizeU8, Rat.floor_def]
  obtain ⟨n, hn⟩ := Int.eq_ofNat_of_zero_le hnum
  rw [hn]
  rw [← Int.natCast_div]
  simp only [Int.toNat_natCast]

theorem mapArr_mapArr {α β γ : Type} (f : β → γ) (g : α → β) (a : Arr3 α) :
    mapArr f (mapArr g a) = mapArr (fun x => f (g x)) a := by
  simp [mapArr, List.map_map, Function.comp_def]

theorem getD_map {α β : Type} (f : α → β) (l : List α) (i : ℕ) (d : α) :
    (l.map f).getD i (f d) = f (l.getD i d) := by
  induction l generalizing i with
  | nil => simp [List.getD]
  | cons x xs ih =>
    cases i with
    | zero => simp
    | succ k => simpa using ih k

theorem getD_map_rows {α β : Type} (f : α → β) (l : List (List α)) (i : ℕ) :
    (l.map (fun r => r.map f)).getD i [] = (l.getD i []).map f := by
  simpa using getD_map (fun r => r.map f) l i []

theorem getD_map_cell {α β : Type} [Inhabited α] [Inhabited β] (f : α → β)
    (hf : f default = default) (r : List α) (j : ℕ) :
    (r.map f).getD j default = f (r.getD j default) := by
  rw [← hf]
  exact getD_map f r j default

/-- Transposition commutes with elementwise maps that fix the out-of-range
default value. -/
theorem transpose120_map {α β : Type} [Inhabited α] [Inhabited β] (f : α → β)
    (hf : f default = default) (a : Arr3 α) :
    transpose120 (mapArr f a) = mapArr f (transpose120 a) := by
  cases a with
  | nil => rfl
  | cons c r =>
    simp only [mapArr, List.map_cons, transpose120, List.length_map, List.map_map,
      Function.comp_def, getD_map_rows]
    apply List.map_congr_left
    intro i _
    apply List.map_congr_left
    intro j _
    simp only [List.map_cons, List.map_map, Function.comp_def, getD_map_rows,
      getD_map_cell f hf]

theorem clip01_nonneg (q : ℚ) : 0 ≤ clip01 q := le_max_left 0 _

theorem clip01_mono (a b : ℚ) (h : a ≤ b) : clip01 a ≤ clip01 b :=
  max_le_max le_rfl (min_le_min le_rfl h)

theorem quantizeU8_mono (a b : ℚ) (ha : 0 ≤ a) (h : a ≤ b) : quantizeU8 a ≤ quantizeU8 b := by
  rw [quantizeU8_eq_floor a ha, quantizeU8_eq_floor b (le_trans ha h)]
  exact Int.toNat_le_toNat (Int.floor_mono (mul_le_mul_of_nonneg_right h (by norm_num)))

theorem flat3_mapArr {α β : Type} (f : α → β) (a : Arr3 α) :
    flat3 (mapArr f a) = (flat3 a).map f := by
  induction a with
  | nil => rfl
  | cons p r ih =>
    simpa [flat3, mapArr, List.flatten_cons, List.map_append] using ih

theorem mapArr_congr {α β : Type} (f g : α → β) (h : ∀ x, f x = g x) (a : Arr3 α) :
    mapArr f a = mapArr g a := by
  rw [funext h]

theorem sanitize_nanToNum3 (a : Arr3 FVal) : sanitize (nanToNum3 a) = sanitize a := by
  unfold sanitize nanToNum3
  rw [mapArr_mapArr]
  exact mapArr_congr _ _ (fun x => by cases x <;> rfl) a

theorem toQ_default : FVal.toQ default = default := by
  show FVal.toQ FVal.nan = (0 : ℚ)
  rfl

theorem sanitize_transpose120 (a : Arr3 FVal) :
    sanitize (transpose120 a) = transpose120 (sanitize a) := by
  unfold sanitize
  exact (transpose120_map FVal.toQ toQ_default a).symm

/-- NaN replacement leaves the sanitized, axis-corrected array unchanged: the
sanitization in the pipeline reads every NaN cell as 0 in both cases. -/
theorem sanitize_axisFix_nanToNum3 (a : Arr3 FVal) :
    sanitize (axisFix (nanToNum3 a)) = sanitize (axisFix a) := by
  unfold axisFix
  have hlen : (nanToNum3 a).length = a.length := by simp [nanToNum3, mapArr]
  simp only [hlen]
  by_cases h3 : a.length = 3
  · rw [if_pos h3, if_pos h3, sanitize_transpose120, sanitize_transpose120, sanitize_nanToNum3]
  · rw [if_neg h3, if_neg h3, sanitize_nanToNum3]

theorem normalizeQ_length (p : Arr3 ℚ) : (normalizeQ p).length = p.length := by
  unfold normalizeQ
  rcases h1 : listMin (flat3 p) with _ | m
  · rcases h2 : listMax (flat3 p) with _ | M <;> simp [mapArr]
  · rcases h2 : listMax (flat3 p) with _ | M
    · simp [mapArr]
    · simp only [mapArr, List.length_map]
      split <;> simp [mapArr, flatNormal]

/-- Every error `_fetch_image_from_url` produces is an HTTP 400 whose detail
is the fixed prefix followed by the underlying exception text. -/
theorem fetch_error_shape {Img : Type} (env : FetchEnv Img) (url : String) (err : HttpError)
    (ft : FetchTrace) (h : fetch_image_from_url env url = (.error err, ft)) :
    err.status = 400 ∧ ∃ e, err.detail = "Failed to load/parse image: " ++ e := by
  unfold fetch_image_from_url at h
  split at h
  · split at h
    · injection h with h1 h2
      injection h1 with h1
      subst h1
      exact ⟨rfl, unpackErrMsg, rfl⟩
    · split at h
      · injection h with h1 h2
        injection h1 with h1
        subst h1
        exact ⟨rfl, _, rfl⟩
      · split at h
        · injection h with h1 h2
          injection h1 with h1
          subst h1
          exact ⟨rfl, _, rfl⟩
        · injection h with h1 h2
          exact Except.noConfusion h1
  · split at h
    · injection h with h1 h2
      injection h1 with h1
      subst h1
      exact ⟨rfl, _, rfl⟩
    · split at h
      · injection h with h1 h2
        injection h1 with h1
        subst h1
        exact ⟨rfl, _, rfl⟩
      · injection h with h1 h2
        exact Except.noConfusion h1

/-- C1: for every raw prediction whose (NaN-sanitized, axis-corrected) values
have max - min > 0.1, the handler's normalization maps each element v to
uint8(255 * clip([0,1], (v - min) / (max - min))): a monotone transform under
which the minimum input value maps to pixel 0 and the maximum to pixel 255;
moreover the min and max the source computes are the attained least and
greatest elements. -/
theorem claim_C1 (pred : Arr3 FVal) (m M : ℚ)
    (hmin : listMin (flat3 (sanitize (axisFix pred))) = some m)
    (hmax : listMax (flat3 (sanitize (axisFix pred))) = some M)
    (hspan : M - m > 1/10) :
    marigoldNormalize pred
      = mapArr (fun v => quantizeU8 (clip01 ((v - m) / (M - m)))) (sanitize (axisFix pred))
    ∧ quantizeU8 (clip01 ((m - m) / (M - m))) = 0
    ∧ quantizeU8 (clip01 ((M - m) / (M - m))) = 255
    ∧ (∀ v w : ℚ, v ≤ w →
        quantizeU8 (clip01 ((v - m) / (M - m))) ≤ quantizeU8 (clip01 ((w - m) / (M - m))))
    ∧ m ∈ flat3 (sanitize (axisFix pred))
    ∧ (∀ x ∈ flat3 (sanitize (axisFix pred)), m ≤ x)
    ∧ M ∈ flat3 (sanitize (axisFix pred))
    ∧ (∀ x ∈ flat3 (sanitize (axisFix pred)), x ≤ M) := by
  have hpos : (0 : ℚ) < M - m := lt_trans (by norm_num) hspan
  obtain ⟨hmem, hle⟩ := listMin_spec _ _ hmin
  obtain ⟨hMem, hMle⟩ := listMax_spec _ _ hmax
  refine ⟨?_, ?_, ?_, ?_, hmem, hle, hMem, hMle⟩
  · simp only [marigoldNormalize, normalizeQ, hmin, hmax]
    rw [if_pos hspan, mapArr_mapArr]
  · norm_num [clip01, quantizeU8, min_def, max_def]
  · rw [div_self hpos.ne']
    norm_num [clip01, quantizeU8, min_def, max_def]
    decide
  · intro v w hvw
    exact quantizeU8_mono _ _ (clip01_nonneg _)
      (clip01_mono _ _ ((div_le_div_right hpos).mpr (sub_le_sub_right hvw m)))

/-- Witness for C1 at the concrete prediction [[[0, 1, 2]]] with min 0, max 2
and span 2 > 0.1. -/
theorem claim_C1_witness :
    listMin (flat3 (sanitize (axisFix [[[.val 0, .val 1, .val 2]]]))) = some 0
    ∧ listMax (flat3 (sanitize (axisFix [[[.val 0, .val 1, .val 2]]]))) = some 2
    ∧ ((2 : ℚ) - 0 > 1/10)
    ∧ marigoldNormalize [[[.val 0, .val 1, .val 2]]]
        = mapArr (fun v => quantizeU8 (clip01 ((v - 0) / (2 - 0))))
            (sanitize (axisFix [[[.val 0, .val 1, .val 2]]])) := by
  have h1 : listMin (flat3 (sanitize (axisFix [[[.val 0, .val 1, .val 2]]]))) = some 0 := by
    norm_num [axisFix, sanitize, mapArr, flat3, listMin, FVal.toQ, min_def]
  have h2 : listMax (flat3 (sanitize (axisFix [[[.val 0, .val 1, .val 2]]]))) = some 2 := by
    norm_num [axisFix, sanitize, mapArr, flat3, listMax, FVal.toQ, max_def]
  have h3 : ((2 : ℚ) - 0 > 1/10) := by norm_num
  exact ⟨h1, h2, h3, (claim_C1 [[[.val 0, .val 1, .val 2]]] 0 2 h1 h2 h3).1⟩

/-- C2 evaluation at the failing input: the all-0.5 prediction takes the
low-contrast fallback branch, but the fallback value (0.5, 0.5, 1.0) quantizes
to the pixel triple (127, 127, 255), not the (128, 128, 255) stated by the
claim and by the source's own comment, because 0.5 * 255 = 127.5 truncates to
127 under the uint8 cast. -/
theorem claim_C2_flat_eval :
    marigoldNormalize [[[.val (1/2), .val (1/2), .val (1/2)]]] = [[[127, 127, 255]]]
    ∧ ([[[127, 127, 255]]] : Arr3 ℕ) ≠ [[[128, 128, 255]]] := by
  constructor
  · norm_num [marigoldNormalize, normalizeQ, sanitize, axisFix, mapArr, flat3, listMin, listMax,
      clip01, quantizeU8, flatNormal, flatNormalRow, FVal.toQ, min_def, max_def, List.enum]
    decide
  · decide

/-- C3: replacing every NaN cell by 0.0 before the min/max/span computation is
exactly what the pipeline does, so normalizing any prediction gives the same
output as normalizing its NaN-sanitized copy, and the sanitized copy contains
no NaN. -/
theorem claim_C3 (pred : Arr3 FVal) :
    marigoldNormalize (nanToNum3 pred) = marigoldNormalize pred
    ∧ hasNaN3 (nanToNum3 pred) = false := by
  constructor
  · unfold marigoldNormalize
    rw [sanitize_axisFix_nanToNum3]
  · simp only [hasNaN3, nanToNum3, flat3_mapArr, List.any_map]
    simp only [List.any_eq_false, Function.comp_def]
    intro x _
    cases x <;> simp [nanToNumF, FVal.isNaN]

/-- C4 counterexample: the channel-first array A of shape (3, 3, 1) with
A[c][i][0] = 3c + i and the channel-last array B of shape (H, W, 3) = (3, 1, 3)
holding identical values (B[i][j][c] = A[c][i][j]) normalize to different
outputs, because B's first axis also has length H = 3, so B too is treated as
channel-first and permuted: the results do not even have the same shape. -/
theorem claim_C4_counterexample :
    marigoldNormalize
        [[[.val 0], [.val 1], [.val 2]], [[.val 3], [.val 4], [.val 5]],
         [[.val 6], [.val 7], [.val 8]]]
      ≠ marigoldNormalize
        [[[.val 0, .val 3, .val 6]], [[.val 1, .val 4, .val 7]], [[.val 2, .val 5, .val 8]]] := by
  intro h
  have hA : (marigoldNormalize
      [[[.val 0], [.val 1], [.val 2]], [[.val 3], [.val 4], [.val 5]],
       [[.val 6], [.val 7], [.val 8]]]).length = 3 := by
    rw [marigoldNormalize, normalizeQ_length]
    rfl
  have hB : (marigoldNormalize
      [[[.val 0, .val 3, .val 6]], [[.val 1, .val 4, .val 7]],
       [[.val 2, .val 5, .val 8]]]).length = 1 := by
    rw [marigoldNormalize, normalizeQ_length]
    rfl
  rw [h, hB] at hA
  exact absurd hA (by decide)

/-- C4 amended: a channel-first array (first axis length 3) and the
channel-last array holding the same values (its transpose) produce identical
normalized outputs whenever the height H — the transposed array's first-axis
length — is not 3; in that case only the channel-first copy is permuted.
(When H = 3 the channel-last copy is itself mistaken for channel-first and
permuted too, as the counterexample shows.) -/
theorem claim_C4_amended (A : Arr3 FVal) (h3 : A.length = 3)
    (hH : (transpose120 A).length ≠ 3) :
    marigoldNormalize A = marigoldNormalize (transpose120 A) := by
  have hfix : axisFix A = axisFix (transpose120 A) := by
    unfold axisFix
    rw [if_pos h3, if_neg hH]
  rw [marigoldNormalize, marigoldNormalize, hfix]

/-- Witness for C4 amended at a channel-first array of shape (3, 2, 1), whose
channel-last transpose has first-axis length 2 ≠ 3. -/
theorem claim_C4_amended_witness :
    ([[[.val 0], [.val 1]], [[.val 2], [.val 3]], [[.val 4], [.val 5]]] : Arr3 FVal).length = 3
    ∧ (transpose120
        ([[[.val 0], [.val 1]], [[.val 2], [.val 3]], [[.val 4], [.val 5]]] : Arr3 FVal)).length ≠ 3
    ∧ marigoldNormalize [[[.val 0], [.val 1]], [[.val 2], [.val 3]], [[.val 4], [.val 5]]]
        = marigoldNormalize (transpose120
            [[[.val 0], [.val 1]], [[.val 2], [.val 3]], [[.val 4], [.val 5]]]) :=
  ⟨rfl, by decide,
    claim_C4_amended [[[.val 0], [.val 1]], [[.val 2], [.val 3]], [[.val 4], [.val 5]]]
      rfl (by decide)⟩

/-- C5: the effective step count equals max(requested, 20) for every supplied
integer, in particular 5 is raised to 20 and 50 is kept; the floor of 20 holds
unconditionally; the computed value is exactly `max(req.num_inference_steps or
20, 20)`; and whenever the handler invokes the pipeline, the step count it
passes is this effective step count and the seed is the request's seed. -/
theorem claim_C5 :
    (∀ n : ℤ, effective_steps (some n) = max n 20)
    ∧ effective_steps (some 5) = 20
    ∧ effective_steps (some 50) = 50
    ∧ (∀ x : Option ℤ, 20 ≤ effective_steps x)
    ∧ (∀ x : Option ℤ, effective_steps x = max (pyOrInt x 20) 20)
    ∧ (∀ (Img Pipe OutImg : Type) (env : HandlerEnv Img Pipe OutImg) (cache : Option Pipe)
        (req : MarigoldRequest) (s : ℤ) (sd : Option ℤ),
        (marigold_normals env cache req).2.2.inferCall = some (s, sd) →
          s = effective_steps req.num_inference_steps ∧ sd = req.seed) := by
  refine ⟨?_, by decide, by decide, ?_, fun x => rfl, ?_⟩
  · intro n
    by_cases h : n = 0
    · subst h
      decide
    · simp [effective_steps, pyOrInt, h]
  · intro x
    exact le_max_right _ 20
  · intro Img Pipe OutImg env cache req s sd h
    unfold marigold_normals at h
    split at h
    · simp at h
    · split at h
      · simp at h
      · dsimp only at h
        split at h <;>
          (simp only [Option.some.injEq, Prod.mk.injEq] at h; exact ⟨h.1.symm, h.2.symm⟩)

/-- Witness for C5: running the handler on a request asking for 5 steps
records an inference call with 20 steps, and the implication of `claim_C5`
applies to it. -/
theorem claim_C5_witness :
    (marigold_normals okEnv none lowStepsReq).2.2.inferCall = some (20, none)
    ∧ (20 : ℤ) = effective_steps lowStepsReq.num_inference_steps
    ∧ (none : Option ℤ) = lowStepsReq.seed := by
  have h : (marigold_normals okEnv none lowStepsReq).2.2.inferCall = some (20, none) := by rfl
  exact ⟨h, claim_C5.2.2.2.2.2 Unit Unit Unit okEnv none lowStepsReq 20 none h⟩

/-- C6: when image fetching/decoding fails, the handler returns that failure —
always an HTTP 400 carrying the descriptive detail prefix — with the cache
untouched, and the trace shows `_load_pipeline` was never invoked: image
acquisition (line 118) strictly precedes pipeline loading (line 121). -/
theorem claim_C6 {Img Pipe OutImg : Type} (env : HandlerEnv Img Pipe OutImg)
    (cache : Option Pipe) (req : MarigoldRequest) (err : HttpError) (ft : FetchTrace)
    (hfetch : fetch_image_from_url env.fetchEnv req.image_url = (.error err, ft)) :
    err.status = 400
    ∧ (∃ e, err.detail = "Failed to load/parse image: " ++ e)
    ∧ marigold_normals env cache req
        = (.error err, cache, { fetchTrace := ft, loadCalled := false, inferCall := none }) := by
  obtain ⟨h400, hdet⟩ := fetch_error_shape env.fetchEnv req.image_url err ft hfetch
  refine ⟨h400, hdet, ?_⟩
  unfold marigold_normals
  rw [hfetch]

/-- Witness for C6: with a failing base64 decoder, the fetch returns an HTTP
400 and `claim_C6` applies, showing the pipeline loader is never invoked. -/
theorem claim_C6_witness :
    fetch_image_from_url badDecodeEnv.fetchEnv badPayloadReq.image_url
      = (.error ⟨400, "Failed to load/parse image: bad base64"⟩,
         { b64Call := some "???", networkCall := none })
    ∧ marigold_normals badDecodeEnv none badPayloadReq
        = (.error ⟨400, "Failed to load/parse image: bad base64"⟩, none,
           { fetchTrace := { b64Call := some "???", networkCall := none }
             loadCalled := false, inferCall := none }) := by
  have h : fetch_image_from_url badDecodeEnv.fetchEnv badPayloadReq.image_url
      = (.error ⟨400, "Failed to load/parse image: bad base64"⟩,
         { b64Call := some "???", networkCall := none }) := by rfl
  exact ⟨h, (claim_C6 badDecodeEnv none badPayloadReq _ _ h).2.2⟩

/-- C7: if creating the pipeline fails while the cache is unset, the handler
surfaces the failure as an HTTP 500 prefixed "Failed to load model: ", and the
cached singleton is still unset afterwards — `_PIPELINE` is assigned only
after `from_pretrained` and `.to(device)` both succeed. -/
theorem claim_C7 {Img Pipe OutImg : Type} (env : HandlerEnv Img Pipe OutImg)
    (req : MarigoldRequest) (img : Img) (ft : FetchTrace) (e : String)
    (hfetch : fetch_image_from_url env.fetchEnv req.image_url = (.ok img, ft))
    (hload : env.create = .error e) :
    marigold_normals env none req
      = (.error ⟨500, "Failed to load model: " ++ e⟩, none,
         { fetchTrace := ft, loadCalled := true, inferCall := none })
    ∧ load_pipeline none env.create = (.error e, none) := by
  have hlp : load_pipeline (none : Option Pipe) env.create = (.error e, none) := by
    unfold load_pipeline
    rw [hload]
  refine ⟨?_, hlp⟩
  unfold marigold_normals
  rw [hfetch, hlp]

/-- Witness for C7: with pipeline creation failing and an empty cache, the
handler returns a 500 and leaves the cache unset. -/
theorem claim_C7_witness :
    fetch_image_from_url badLoadEnv.fetchEnv dataUriReq.image_url
      = (.ok (), { b64Call := some "aGk=", networkCall := none })
    ∧ badLoadEnv.create = .error "model unavailable"
    ∧ marigold_normals badLoadEnv none dataUriReq
        = (.error ⟨500, "Failed to load model: model unavailable"⟩, none,
           { fetchTrace := { b64Call := some "aGk=", networkCall := none }
             loadCalled := true, inferCall := none }) := by
  have h1 : fetch_image_from_url badLoadEnv.fetchEnv dataUriReq.image_url
      = (.ok (), { b64Call := some "aGk=", networkCall := none }) := by rfl
  have h2 : badLoadEnv.create = .error "model unavailable" := rfl
  exact ⟨h1, h2, (claim_C7 badLoadEnv dataUriReq () _ _ h1 h2).1⟩

/-- C8: for every reference string, `_fetch_image_from_url` performs no
network call when the string starts with the data-URI prefix "data:image" —
instead handing the payload after the first comma to the base64 decoder — and
otherwise performs exactly one network fetch of that URL with timeout 15. -/
theorem claim_C8 {Img : Type} (env : FetchEnv Img) (url : String) :
    (fetch_image_from_url env url).2
      = if startsWithDataImage url
        then { b64Call := (splitFirstComma url).map (fun p => p.2), networkCall := none }
        else { b64Call := none, networkCall := some (url, 15) } := by
  unfold fetch_image_from_url
  split
  case isTrue hd =>
    split
    case h_1 hs =>
      rw [hs]
      rfl
    case h_2 pre enc hs =>
      rw [hs]
      split
      · rfl
      · split <;> rfl
  case isFalse hd =>
    split
    · rfl
    · split <;> rfl

/-- C9: if the pipeline result exposes a raw prediction, the normalization is
applied to it; otherwise, if it exposes a nonempty finished-image list, the
first finished image is used directly, bypassing normalization; and if neither
is present (no prediction and `images` absent or empty), the handler fails
with an HTTP 500 stating that no usable output was returned. -/
theorem claim_C9 {OutImg : Type} :
    (∀ (pred : Arr3 FVal) (imgs : Option (List OutImg)),
        selectOutput (some pred) imgs = .ok (.inl (marigoldNormalize pred)))
    ∧ (∀ (img : OutImg) (rest : List OutImg),
        selectOutput none (some (img :: rest)) = .ok (.inr img))
    ∧ ((selectOutput none none : Except HttpError (NormalImage OutImg))
        = .error ⟨500, "Model returned no images or prediction"⟩)
    ∧ ((selectOutput none (some ([] : List OutImg)) : Except HttpError (NormalImage OutImg))
        = .error ⟨500, "Model returned no images or prediction"⟩) :=
  ⟨fun _ _ => rfl, fun _ _ => rfl, rfl, rfl⟩

/-- C10: the declared field default of 30 applies only when the field is
omitted from the request entirely; a request that explicitly supplies null
(`none`) or 0 for `num_inference_steps` yields an effective step count of 20,
because `num_inference_steps or 20` treats both as falsy, while an omitted
field carries the declared default 30 and yields 30. -/
theorem claim_C10 :
    (∀ u : String, ({ image_url := u } : MarigoldRequest).num_inference_steps = some 30)
    ∧ effective_steps none = 20
    ∧ effective_steps (some 0) = 20
    ∧ effective_steps (some 30) = 30
    ∧ (20 : ℤ) ≠ 30 :=
  ⟨fun _ => rfl, by decide, by decide, by decide, by decide⟩
